import Mathlib

/-!
Verification of the lease-processing pipeline (`src/main.py`) against its
natural-language specification.  The Python endpoint `process_lease` is
shallowly embedded: external effects (HTTP download, pdfplumber, OCR, the two
model calls, reportlab build, S3 upload/presign) are supplied by an `Env`
oracle that records the outcome of each call; Python exceptions are modelled by the
`Exc` type threaded through `Except`; the JSON handling (`json.loads`, the
greedy regex `\{.*\}` of `re.search`, dict `.get` / `[]` / list indexing with
their distinct error classes) is modelled executably.  The response envelope
of the handler and the lifecycle of the two transient files are the subjects of the
claims.
-/

namespace LeaseScan

/-- Python exception classes relevant to the `except` clauses of `process_lease`:
`requests.exceptions.RequestException`, `botocore ClientError`, `ValueError`
(including `json.JSONDecodeError`, its subclass), and the remaining
`Exception` subclasses raised by the code (`KeyError`, `IndexError`,
`AttributeError`, anything else). -/
inductive Exc where
  | requestException (msg : String)
  | clientError (msg : String)
  | valueError (msg : String)
  | keyError (k : String)
  | indexError
  | attributeError (msg : String)
  | otherException (msg : String)
deriving Repr, DecidableEq

/-- The caller-facing JSON envelope: exactly the two dict shapes built by
`process_lease` — `{status:"success", message, report_url, email}` and
`{status:"error", message}`. -/
inductive Response where
  | success (message reportUrl email : String)
  | error (message : String)
deriving Repr, DecidableEq

/-- Values produced by `json.loads`: null, bool, number, string, array,
object (field list in source order). -/
inductive JVal where
  | jnull
  | jbool (b : Bool)
  | jnum (q : Rat)
  | jstr (s : String)
  | jarr (xs : List JVal)
  | jobj (fields : List (String × JVal))

/-- Python dict lookup over the decoded field list.  `json.loads` keeps the
last occurrence of a duplicated key, so the search prefers later entries. -/
def lookupField : List (String × JVal) → String → Option JVal
  | [], _ => none
  | (k2, v) :: rest, k =>
    match lookupField rest k with
    | some r => some r
    | none => if k2 = k then some v else none

/-- Python truthiness (`if x:`) for decoded JSON values. -/
def pyTruthy : JVal → Bool
  | .jnull => false
  | .jbool b => b
  | .jnum q => q ≠ 0
  | .jstr s => s ≠ ""
  | .jarr xs => !xs.isEmpty
  | .jobj fs => !fs.isEmpty

/-- Model of `d.get(k, default)` — a method call, so a non-dict raises
`AttributeError`. -/
def pyDotGetD (v : JVal) (k : String) (d : JVal) : Except Exc JVal :=
  match v with
  | .jobj fs => .ok ((lookupField fs k).getD d)
  | _ => .error (.attributeError "get")

/-- Subscript access `d[k]` — `KeyError` on a missing key, `TypeError` when the
value is not a dict. -/
def pySub (v : JVal) (k : String) : Except Exc JVal :=
  match v with
  | .jobj fs =>
    match lookupField fs k with
    | some x => .ok x
    | none => .error (.keyError k)
  | _ => .error (.otherException "TypeError")

/-- List indexing `xs[i]` — `IndexError` past the end, `TypeError` when the
value is not a list. -/
def pyIndex (v : JVal) (i : Nat) : Except Exc JVal :=
  match v with
  | .jarr xs =>
    match xs.get? i with
    | some x => .ok x
    | none => .error .indexError
  | _ => .error (.otherException "TypeError")

/-- Iterating a value that must be a JSON array (`for x in v`). -/
def asArr (v : JVal) : Except Exc (List JVal) :=
  match v with
  | .jarr xs => .ok xs
  | _ => .error (.otherException "TypeError")

/-- Calling a `str` method (`.title()`, `.replace()`, `.strip()`) on a value
that must be a string — `AttributeError` otherwise. -/
def asStrA (v : JVal) : Except Exc String :=
  match v with
  | .jstr s => .ok s
  | _ => .error (.attributeError "str method")

/-- Whitespace as recognized by Python `str.strip()` / the JSON scanner on
the characters the pipeline handles. -/
def isPyWs (c : Char) : Bool :=
  c = ' ' || c = '\t' || c = '\n' || c = '\r' || c = '\x0b' || c = '\x0c'

/-- Truthiness of `s.strip()`: the string has at least one non-whitespace char. -/
def hasNonWs (s : String) : Bool :=
  s.data.any (fun c => !(isPyWs c))

/-- Python `str.lower()` (ASCII). -/
def lowerStr (s : String) : String := String.mk (s.data.map Char.toLower)

/-- Model of `str.replace("_", " ")`. -/
def replaceUS (s : String) : String :=
  String.mk (s.data.map (fun c => if c = '_' then ' ' else c))

/-- Worker for `titleCase`: the flag says whether the previous character was
alphabetic. -/
def titleCaseAux : Bool → List Char → List Char
  | _, [] => []
  | prevAlpha, c :: rest =>
    if c.isAlpha then
      (if prevAlpha then c.toLower else c.toUpper) :: titleCaseAux true rest
    else c :: titleCaseAux false rest

/-- Python `str.title()` (ASCII): each alphabetic run starts uppercase,
continues lowercase. -/
def titleCase (s : String) : String := String.mk (titleCaseAux false s.data)

/-- Integer value of a digit run. -/
def natOfDigits (ds : List Char) : Nat :=
  ds.foldl (fun a c => a * 10 + (c.toNat - 48)) 0

/-- Skip JSON whitespace. -/
def skipWs : List Char → List Char
  | [] => []
  | c :: rest => if isPyWs c then skipWs rest else c :: rest

/-- JSON string escapes handled by the model (the subset exercised by the
payloads the pipeline handles). -/
def escChar (c : Char) : Option Char :=
  if c = '"' then some '"'
  else if c = '\\' then some '\\'
  else if c = '/' then some '/'
  else if c = 'n' then some '\n'
  else if c = 't' then some '\t'
  else if c = 'r' then some '\r'
  else none

/-- Body of a JSON string literal after the opening quote: characters up to
the closing quote, with escapes. -/
def parseStrChars : List Char → Option (List Char × List Char)
  | [] => none
  | c :: rest =>
    if c = '"' then some ([], rest)
    else if c = '\\' then
      match rest with
      | [] => none
      | e :: rest2 =>
        match escChar e with
        | none => none
        | some d =>
          match parseStrChars rest2 with
          | none => none
          | some (acc, rem) => some (d :: acc, rem)
    else
      match parseStrChars rest with
      | none => none
      | some (acc, rem) => some (c :: acc, rem)

/-- JSON number: optional minus, digits, optional fraction. -/
def parseNum (cs : List Char) : Option (Rat × List Char) :=
  let p := match cs with
    | '-' :: r => (true, r)
    | _ => (false, cs)
  let d1 := p.2.span (fun c => c.isDigit)
  if d1.1.isEmpty then none
  else
    let ip : Rat := (natOfDigits d1.1 : Int)
    match d1.2 with
    | '.' :: cs3 =>
      let d2 := cs3.span (fun c => c.isDigit)
      if d2.1.isEmpty then none
      else
        let q : Rat := ip + (natOfDigits d2.1 : Rat) / ((10 : Rat) ^ d2.1.length)
        some ((if p.1 then -q else q), d2.2)
    | rest => some ((if p.1 then -ip else ip), rest)

/-- JSON literals `true` / `false` / `null`. -/
def parseLit : List Char → Option (JVal × List Char)
  | 't' :: 'r' :: 'u' :: 'e' :: rest => some (.jbool true, rest)
  | 'f' :: 'a' :: 'l' :: 's' :: 'e' :: rest => some (.jbool false, rest)
  | 'n' :: 'u' :: 'l' :: 'l' :: rest => some (.jnull, rest)
  | _ => none

mutual

/-- Recursive-descent JSON value parser (fuel-indexed model of the
`json.loads` grammar). -/
def parseVal : Nat → List Char → Option (JVal × List Char)
  | 0, _ => none
  | fuel + 1, cs =>
    match skipWs cs with
    | [] => none
    | c :: rest =>
      if c = '"' then
        match parseStrChars rest with
        | some (sc, rem) => some (.jstr (String.mk sc), rem)
        | none => none
      else if c = '\x7b' then parseObjBody fuel rest
      else if c = '[' then parseArrBody fuel rest
      else if c = '-' || c.isDigit then
        match parseNum (c :: rest) with
        | some (q, rem) => some (.jnum q, rem)
        | none => none
      else parseLit (c :: rest)

/-- Object body after `{`. -/
def parseObjBody : Nat → List Char → Option (JVal × List Char)
  | 0, _ => none
  | fuel + 1, cs =>
    match skipWs cs with
    | '\x7d' :: rest => some (.jobj [], rest)
    | cs2 =>
      match parseMembers fuel cs2 with
      | some (fs, rem) => some (.jobj fs, rem)
      | none => none

/-- Non-empty `key : value` member list of an object, incl. the closing
brace. -/
def parseMembers : Nat → List Char → Option (List (String × JVal) × List Char)
  | 0, _ => none
  | fuel + 1, cs =>
    match skipWs cs with
    | '"' :: rest =>
      match parseStrChars rest with
      | some (key, rem) =>
        match skipWs rem with
        | ':' :: rem2 =>
          match parseVal fuel rem2 with
          | some (v, rem3) =>
            match skipWs rem3 with
            | ',' :: rem4 =>
              match parseMembers fuel rem4 with
              | some (fs, rem5) => some ((String.mk key, v) :: fs, rem5)
              | none => none
            | '\x7d' :: rem4 => some ([(String.mk key, v)], rem4)
            | _ => none
          | none => none
        | _ => none
      | none => none
    | _ => none

/-- Array body after `[`. -/
def parseArrBody : Nat → List Char → Option (JVal × List Char)
  | 0, _ => none
  | fuel + 1, cs =>
    match skipWs cs with
    | ']' :: rest => some (.jarr [], rest)
    | cs2 =>
      match parseItems fuel cs2 with
      | some (xs, rem) => some (.jarr xs, rem)
      | none => none

/-- Non-empty item list of an array, incl. the closing bracket. -/
def parseItems : Nat → List Char → Option (List JVal × List Char)
  | 0, _ => none
  | fuel + 1, cs =>
    match parseVal fuel cs with
    | some (v, rem) =>
      match skipWs rem with
      | ',' :: rem2 =>
        match parseItems fuel rem2 with
        | some (xs, rem3) => some (v :: xs, rem3)
        | none => none
      | ']' :: rem2 => some ([v], rem2)
      | _ => none
    | none => none

end

/-- Model of Python `json.loads`: parse one value, succeed only when the
rest is whitespace (Python raises `Extra data` otherwise);
`json.JSONDecodeError` (a `ValueError` subclass) is modelled as `none`. -/
def jsonLoads (s : String) : Option JVal :=
  match parseVal (2 * s.length + 2) s.data with
  | some (v, rem) => if skipWs rem = [] then some v else none
  | none => none

/-- Index of the first occurrence of a character (the leftmost
match start of `re.search`). -/
def firstIdx (t : Char) : List Char → Option Nat
  | [] => none
  | c :: rest => if c = t then some 0 else (firstIdx t rest).map (fun n => n + 1)

/-- Index of the last occurrence of a character. -/
def lastIdx (t : Char) (cs : List Char) : Option Nat :=
  match firstIdx t cs.reverse with
  | some k => some (cs.length - 1 - k)
  | none => none

/-- Model of the `re.search` call with pattern `\{.*\}` and DOTALL (line 215): the leftmost
start is the first `\x7b`, the greedy `.*` runs to the last `\x7d`; a match
needs the last `\x7d` strictly after the first `\x7b`. -/
def extractJson (s : String) : Option String :=
  match firstIdx '\x7b' s.data, lastIdx '\x7d' s.data with
  | some i, some j =>
    if i < j then some (String.mk ((s.data.drop i).take (j - i + 1))) else none
  | _, _ => none

/-- Lines 215-219: locate the brace span in the Claude text block, then
`json.loads` it; no span raises `ValueError("No valid JSON found in Claude
response")`, a failing parse raises `json.JSONDecodeError` (a `ValueError`). -/
def clauseParse (s : String) : Except Exc JVal :=
  match extractJson s with
  | some span =>
    match jsonLoads span with
    | some v => .ok v
    | none => .error (.valueError "JSONDecodeError")
  | none => .error (.valueError "No valid JSON found in Claude response")

/-- Line 213: `claude_response.json().get("content", [{}])[0].get("text",
"{}")` — the text block of the Claude body, default `"{}"`; `re.search`
requires the result to be a string. -/
def claudeExtractContent (body : JVal) : Except Exc String := do
  let contentList ← pyDotGetD body "content" (.jarr [.jobj []])
  let first ← pyIndex contentList 0
  let textV ← pyDotGetD first "text" (.jstr "\x7b\x7d")
  match textV with
  | .jstr s => pure s
  | _ => .error (.otherException "TypeError")

/-- Line 253: `grok_response.json().get("choices", [{}])[0].get("message",
{}).get("content", "")`. -/
def riskExtractContent (body : JVal) : Except Exc JVal := do
  let choices ← pyDotGetD body "choices" (.jarr [.jobj []])
  let first ← pyIndex choices 0
  let msg ← pyDotGetD first "message" (.jobj [])
  pyDotGetD msg "content" (.jstr "")

/-- Lines 255-258: the Grok content is used raw — no regex extraction.
`if not grok_data or not grok_data.strip(): raise ValueError(...)`, then
`json.loads(grok_data)`. -/
def riskParse (content : JVal) : Except Exc JVal :=
  if pyTruthy content = false then
    .error (.valueError "No valid JSON block found in Grok response")
  else
    match content with
    | .jstr s =>
      if hasNonWs s = false then
        .error (.valueError "No valid JSON block found in Grok response")
      else
        match jsonLoads s with
        | some v => .ok v
        | none => .error (.valueError "JSONDecodeError")
    | _ => .error (.attributeError "strip")

/-- Line 223: `c.get("type").lower()` — `.get` without default returns
`None` on a missing key, and `None.lower()` raises `AttributeError`. -/
def dotTypeLower (c : JVal) : Except Exc String :=
  match c with
  | .jobj fs =>
    match lookupField fs "type" with
    | some (.jstr s) => .ok (lowerStr s)
    | _ => .error (.attributeError "lower")
  | _ => .error (.attributeError "get")

/-- Line 228: `c["type"].lower()` — subscript, so `KeyError` on a missing
key. -/
def subTypeLower (c : JVal) : Except Exc String :=
  match c with
  | .jobj fs =>
    match lookupField fs "type" with
    | some (.jstr s) => .ok (lowerStr s)
    | some _ => .error (.attributeError "lower")
    | none => .error (.keyError "type")
  | _ => .error (.otherException "TypeError")

/-- Line 223: the rent clauses logged for verification. -/
def rentClausesOf (cd : JVal) : Except Exc (List JVal) := do
  let cl ← asArr (← pyDotGetD cd "clauses" (.jarr []))
  let pairs ← cl.mapM (fun c => do
    let t ← dotTypeLower c
    pure (c, t))
  pure ((pairs.filter (fun p => p.2 = "rent")).map (fun p => p.1))

/-- Line 227: the required-clause checklist. -/
def checklist : List String :=
  ["rent", "term", "termination", "co-tenancy", "CAM", "maintenance"]

/-- Lines 228-230: checklist items found neither among the lowered clause
types nor (verbatim) in `missing_clauses`; only logged as a warning. -/
def checklistMissing (cd : JVal) : Except Exc (List String) := do
  let cl ← asArr (← pyDotGetD cd "clauses" (.jarr []))
  let lowered ← cl.mapM subTypeLower
  let mj ← asArr (← pyDotGetD cd "missing_clauses" (.jarr []))
  pure (checklist.filter (fun item =>
    !(lowered.contains item || mj.any (fun v =>
      match v with
      | .jstr s => s = item
      | _ => false))))

/-- String rendering of a decoded JSON number as interpolated by the f-strings.
Integers print without a decimal point; non-integers are abbreviated (no
report line proved about in this development interpolates one). -/
def pyNumRepr (q : Rat) : String :=
  if q.den = 1 then toString q.num else toString q

/-- String rendering of a decoded JSON value inside an f-string.  Containers are
abbreviated — no claim exercises their rendering. -/
def jDisplay : JVal → String
  | .jnull => "None"
  | .jbool true => "True"
  | .jbool false => "False"
  | .jnum q => pyNumRepr q
  | .jstr s => s
  | .jarr _ => "[...]"
  | .jobj _ => "\x7b...\x7d"

/-- Line 274: one Key-Details line.  All four fields are direct subscripts
(`clause["type"]`, `["description"]`, `["page"]`, `["confidence"]`), raising
`KeyError` when absent; evaluation order matches the f-string.  The missing
closing parenthesis after the confidence reproduces the source. -/
def clauseLine (c : JVal) : Except Exc String := do
  let tv ← pySub c "type"
  let ts ← asStrA tv
  let desc ← pySub c "description"
  let page ← pySub c "page"
  let conf ← pySub c "confidence"
  pure ("- <b>" ++ titleCase ts ++ "</b>: " ++ jDisplay desc ++ " (Page "
    ++ jDisplay page ++ ", " ++ jDisplay conf ++ "%")

/-- Lines 275-276: the Missing Clauses line, emitted only when
`claude_data.get("missing_clauses")` is truthy. -/
def missingClausesLines (cd : JVal) : Except Exc (List String) := do
  let mcv ← pyDotGetD cd "missing_clauses" .jnull
  if pyTruthy mcv then do
    let xs ← asArr mcv
    let names ← xs.mapM (fun x => do
      let s ← asStrA x
      pure (titleCase s))
    pure ["- <b>Missing Clauses</b>: " ++ String.intercalate ", " names]
  else pure []

/-- Lines 280-282: `r.get("severity", "").lower()`. -/
def sevLower (r : JVal) : Except Exc String := do
  let sv ← pyDotGetD r "severity" (.jstr "")
  match sv with
  | .jstr s => pure (lowerStr s)
  | _ => .error (.attributeError "lower")

/-- Lines 286-287 (and the identical moderate/low lines): one risk line.
`risk["type"]` and `risk["noi_impact"]` are direct subscripts (KeyError when
absent); `page` and `calculation` fall back to `"N/A"`. -/
def riskLine (r : JVal) : Except Exc String := do
  let tv ← pySub r "type"
  let ts ← asStrA tv
  let page ← pyDotGetD r "page" (.jstr "N/A")
  let noi ← pySub r "noi_impact"
  let calcV ← pyDotGetD r "calculation" (.jstr "N/A")
  pure ("- <b>" ++ titleCase (replaceUS ts) ++ "</b> (Page " ++ jDisplay page
    ++ "): $" ++ jDisplay noi ++ "/year (" ++ jDisplay calcV ++ ")")

/-- Lines 300-305: the manual-review section; item fields are direct
subscripts. -/
def reviewManuallyLines (g : JVal) : Except Exc (List String) := do
  let rv ← pyDotGetD g "review_manually" .jnull
  if pyTruthy rv then do
    let items ← asArr rv
    let ls ← items.mapM (fun item => do
      let tv ← pySub item "type"
      let ts ← asStrA tv
      let pg ← pySub item "page"
      let rs ← pySub item "reason"
      pure ("- <b>Page " ++ jDisplay pg ++ ", " ++ titleCase (replaceUS ts)
        ++ "</b>: " ++ jDisplay rs))
    pure ("<b>Review Manually to Validate</b>" :: ls)
  else pure []

/-- Lines 308-311: positive highlights, guarded by truthiness of
`grok_result.get("positive_highlights")`. -/
def positiveHighlightLines (g : JVal) : Except Exc (List String) := do
  let pv ← pyDotGetD g "positive_highlights" .jnull
  if pyTruthy pv then do
    let xs ← asArr (← pyDotGetD g "positive_highlights" (.jarr []))
    pure ("<b>Positive Highlights</b>" :: xs.map (fun h => "- " ++ jDisplay h))
  else pure []

/-- Line 315: `grok_result.get("deal_impact_score", 8) >= 8` — a Python
comparison, `TypeError` when the score is not a number (bools compare as
0/1, both below 8). -/
def scoreGE8 (v : JVal) : Except Exc Bool :=
  match v with
  | .jnum q => .ok (decide (8 ≤ q))
  | .jbool _ => .ok false
  | _ => .error (.otherException "TypeError")

/-- Line 315: the Deal Impact Score line.  The score is
`grok_result.get("deal_impact_score", 8)` — the raw model value, no
clamping; label `Low` iff the value compares `>= 8`. -/
def scoreLineOf (g : JVal) : Except Exc String := do
  let v ← pyDotGetD g "deal_impact_score" (.jnum 8)
  let b ← scoreGE8 (← pyDotGetD g "deal_impact_score" (.jnum 8))
  pure ("<b>Deal Impact Score</b>: " ++ jDisplay v ++ "/10 ("
    ++ (if b then "Low" else "Moderate") ++ " Risk)")

/-- Lines 263-315: the report body (the texts of the `Paragraph`s, in story
order).  `curDate` stands for `os.getenv("CURRENT_DATE", ...)`. -/
def renderReport (curDate : String) (claudeData grokResult : JVal) :
    Except Exc (List String) := do
  let trust ← pyDotGetD claudeData "trust_score" (.jnum 95)
  let clauses ← asArr (← pyDotGetD claudeData "clauses" (.jarr []))
  let clauseLines ← clauses.mapM clauseLine
  let missingLines ← missingClausesLines claudeData
  let risks ← asArr (← pyDotGetD grokResult "risks" (.jarr []))
  let withSev ← risks.mapM (fun r => do
    let s ← sevLower r
    pure (r, s))
  let highs := (withSev.filter (fun p => p.2 = "high")).map (fun p => p.1)
  let mods := (withSev.filter (fun p => p.2 = "moderate")).map (fun p => p.1)
  let lows := (withSev.filter (fun p => p.2 = "low")).map (fun p => p.1)
  let highLines ← if highs.isEmpty then pure [] else do
    let ls ← highs.mapM riskLine
    pure ("<b>High Risk</b>" :: ls)
  let modLines ← if mods.isEmpty then pure [] else do
    let ls ← mods.mapM riskLine
    pure ("<b>Moderate Risk</b>" :: ls)
  let lowLines ← if lows.isEmpty then pure [] else do
    let ls ← lows.mapM riskLine
    pure ("<b>Low Risk</b>" :: ls)
  let noRisk := if highs.isEmpty && mods.isEmpty && lows.isEmpty then
    ["- <b>No Significant Risks Found</b>: All clauses indicate low or no financial/operational risk."]
  else []
  let reviewLines ← reviewManuallyLines grokResult
  let highlightLines ← positiveHighlightLines grokResult
  let summary ← pyDotGetD grokResult "investor_summary"
    (.jstr "Stable lease with minimal risks.")
  let scoreLine ← scoreLineOf grokResult
  pure (["<b>Lease Summary Report</b>",
    "<b>Property</b>: [Property Name]",
    "<b>Uploaded</b>: " ++ curDate,
    "<b>Generated by</b>: LeaseScan AI",
    "<b>Trust Score</b>: " ++ jDisplay trust ++ "%",
    "<b>Key Details</b>"]
    ++ clauseLines ++ missingLines
    ++ ["<b>Risk Flags</b>"]
    ++ highLines ++ modLines ++ lowLines ++ noRisk
    ++ reviewLines ++ highlightLines
    ++ ["<b>Investor Summary</b>", jDisplay summary, scoreLine])

/-- Python `str.split(",")` on the character list: empty pieces are kept,
the result is never empty. -/
def pySplitComma : List Char → List (List Char)
  | [] => [[]]
  | c :: rest =>
    if c = ',' then [] :: pySplitComma rest
    else
      match pySplitComma rest with
      | t :: ts => (c :: t) :: ts
      | [] => [[c]]

/-- Line 121: `email.split(",")[-2] if "," in email else email`. -/
def parsedEmail (s : String) : String :=
  if ',' ∈ s.data then
    let toks := pySplitComma s.data
    String.mk (toks.getD (toks.length - 2) [])
  else s

/-- Line 143: `"".join(page.extract_text() or "" for page in pdf.pages)` —
a page whose text layer is missing contributes the empty string. -/
def joinPages (pages : List (Option String)) : String :=
  String.join (pages.map (fun o => o.getD ""))

/-- Line 153: `"\n".join(pytesseract.image_to_string(image) for image in
images)`. -/
def joinNL (xs : List String) : String := String.intercalate "\n" xs

/-- Lines 150-155: the OCR fallback block.  A raised exception here
propagates (the inner `except` only guards the pdfplumber block). -/
def ocrPart (ocr : Except Exc (List String)) : Except Exc String × Bool :=
  match ocr with
  | .ok xs => (.ok (joinNL xs), true)
  | .error e => (.error e, true)

/-- Lines 140-155, `extract_text_from_pdf`: pdfplumber text layer first;
the result is returned only when `text and text.strip()` holds; on any
pdfplumber exception or unusable text, fall through to OCR.  The Bool
records whether the OCR fallback block ran. -/
def extractTextFromPdf (plumber : Except Exc (List (Option String)))
    (ocr : Except Exc (List String)) : Except Exc String × Bool :=
  match plumber with
  | .ok pages =>
    if hasNonWs (joinPages pages) then (.ok (joinPages pages), false)
    else ocrPart ocr
  | .error _ => ocrPart ocr

/-- The two request fields read by `data.get` (string-typed, as in every
valid request; `None` models an absent key). -/
structure ReqData where
  fileUrl : Option String
  email : Option String

/-- Oracle for the external effects of the endpoint, in call order: the parsed
request body, the PDF download (`requests.get` + `raise_for_status` + file
write), the pdfplumber per-page texts, the per-page OCR strings, the two
model-call response bodies (`response.json()` after `raise_for_status`),
the reportlab build, the S3 upload, the presigned-URL generation, and
`os.getenv("CURRENT_DATE", ...)`. -/
structure Env where
  reqBody : Except Exc ReqData
  download : Except Exc Unit
  plumber : Except Exc (List (Option String))
  ocr : Except Exc (List String)
  claudeCall : Except Exc JVal
  grokCall : Except Exc JVal
  pdfBuild : Except Exc Unit
  s3Upload : Except Exc Unit
  presign : Except Exc String
  curDate : String

/-- Observable side effects of one request: whether the two `/tmp` files
exist when the response is returned, whether the OCR fallback ran, and the
document text handed to the clause model (`text[:200000]`), `none` when the
call was never reached. -/
structure Trace where
  leaseFile : Bool
  reportFile : Bool
  ocrUsed : Bool
  textSent : Option String
deriving Repr, DecidableEq

/-- Truncation `text[:200000]`. -/
def takeChars (n : Nat) (s : String) : String := String.mk (s.data.take n)

/-- Lines 213-230, the clause stage after a successful Claude call: extract
the text block, regex-extract + parse the JSON, then the rent-clause log
(line 223) and the checklist validation (line 228), each of which can raise. -/
def clauseStage (body : JVal) : Except Exc JVal := do
  let contentStr ← claudeExtractContent body
  let cd ← clauseParse contentStr
  let _ ← rentClausesOf cd
  let _ ← checklistMissing cd
  pure cd

/-- Lines 253-258, the risk stage after a successful Grok call. -/
def riskStage (body : JVal) : Except Exc JVal := do
  let content ← riskExtractContent body
  riskParse content

/-- Lines 110-343, the `try` body: `Except.error` is a Python exception in
flight, `Except.ok` an explicit `return`.  The trace records the transient
files (`/tmp/lease_<id>.pdf` exists after the download write, line 135;
`/tmp/report_<id>.pdf` after `pdf.build`, line 317; both are removed only on
the success path, lines 334-335). -/
def runBody (env : Env) : Except Exc Response × Trace :=
  match env.reqBody with
  | .error e => (.error e, ⟨false, false, false, none⟩)
  | .ok req =>
    if req.fileUrl.getD "" = "" || req.email.getD "" = "" then
      (.ok (.error "Missing file URL or email."), ⟨false, false, false, none⟩)
    else
      let em := parsedEmail (req.email.getD "")
      match env.download with
      | .error e => (.error e, ⟨false, false, false, none⟩)
      | .ok _ =>
        let ext := extractTextFromPdf env.plumber env.ocr
        match ext.1 with
        | .error e => (.error e, ⟨true, false, ext.2, none⟩)
        | .ok text =>
          let sent := takeChars 200000 text
          match env.claudeCall with
          | .error e => (.error e, ⟨true, false, ext.2, some sent⟩)
          | .ok cbody =>
            match clauseStage cbody with
            | .error e => (.error e, ⟨true, false, ext.2, some sent⟩)
            | .ok claudeData =>
              match env.grokCall with
              | .error e => (.error e, ⟨true, false, ext.2, some sent⟩)
              | .ok gbody =>
                match riskStage gbody with
                | .error e => (.error e, ⟨true, false, ext.2, some sent⟩)
                | .ok grokData =>
                  match renderReport env.curDate claudeData grokData with
                  | .error e => (.error e, ⟨true, false, ext.2, some sent⟩)
                  | .ok _ =>
                    match env.pdfBuild with
                    | .error e => (.error e, ⟨true, false, ext.2, some sent⟩)
                    | .ok _ =>
                      match env.s3Upload with
                      | .error e => (.error e, ⟨true, true, ext.2, some sent⟩)
                      | .ok _ =>
                        match env.presign with
                        | .error e => (.error e, ⟨true, true, ext.2, some sent⟩)
                        | .ok url =>
                          (.ok (.success "Lease processing completed successfully" url em),
                            ⟨false, false, ext.2, some sent⟩)

/-- Model of str(e) for the modelled exceptions (Python renders a KeyError
as its quoted key, and IndexError from list indexing as the message
`list index out of range`). -/
def excMsg : Exc → String
  | .requestException m => m
  | .clientError m => m
  | .valueError m => m
  | .keyError k => "\x27" ++ k ++ "\x27"
  | .indexError => "list index out of range"
  | .attributeError m => m
  | .otherException m => m

/-- Lines 345-370: the four `except` clauses, in order — RequestException,
ClientError, ValueError (which `json.JSONDecodeError` subclasses), then the
`Exception` catch-all. -/
def handleExc : Exc → Response
  | .requestException m => .error ("Failed to download or process file: " ++ m)
  | .clientError m => .error ("S3 error: " ++ m)
  | .valueError m => .error ("Invalid data: " ++ m)
  | e => .error ("Unexpected error: " ++ excMsg e)

/-- The whole endpoint: the `try` body with every raised exception converted
by the `except` chain, paired with the side-effect trace. -/
def processLease (env : Env) : Response × Trace :=
  match runBody env with
  | (.ok resp, tr) => (resp, tr)
  | (.error e, tr) => (handleExc e, tr)

/-! Concrete fixtures for witnesses and counterexamples. -/

/-- A Claude body whose text block is the pure JSON object `\x7b\x7d`. -/
def claudeBodyOk : JVal :=
  .jobj [("content", .jarr [.jobj [("text", .jstr "\x7b\x7d")]])]

/-- A Grok body whose message content is the pure JSON object `\x7b\x7d`. -/
def grokBodyOk : JVal :=
  .jobj [("choices", .jarr [.jobj [("message",
    .jobj [("content", .jstr "\x7b\x7d")])]])]

/-- An environment in which every external call succeeds: a PDF with a
genuine text layer, both models returning minimal valid JSON, storage
working. -/
def envOk : Env where
  reqBody := .ok ⟨some "https://x/lease.pdf", some "a,b@x.com,c"⟩
  download := .ok ()
  plumber := .ok [some "LEASE TEXT"]
  ocr := .ok []
  claudeCall := .ok claudeBodyOk
  grokCall := .ok grokBodyOk
  pdfBuild := .ok ()
  s3Upload := .ok ()
  presign := .ok "https://s3.example/reports/signed"
  curDate := "2025-07-19 15:52:00 CDT"

/-- Same request, but the Claude call raises a timeout after the source PDF
was already written to `/tmp`. -/
def envClaudeFail : Env :=
  { envOk with claudeCall := .error (.requestException "timeout") }

/-- A scanned PDF with an empty text layer whose OCR also reads nothing. -/
def envBlank : Env :=
  { envOk with plumber := .ok [some ""], ocr := .ok [""] }

/-- A successful Claude call whose body has no `content` key. -/
def envNoContent : Env :=
  { envOk with claudeCall := .ok (.jobj []) }

/-- A successful Claude call whose body has `content: []` (present but
empty). -/
def envEmptyContentList : Env :=
  { envOk with claudeCall := .ok (.jobj [("content", .jarr [])]) }

/-- One high-severity risk record with the given type and NOI impact (page
and calculation left absent). -/
def mkHighRisk (t : String) (n : Int) : JVal :=
  .jobj [("type", .jstr t), ("severity", .jstr "high"), ("noi_impact", .jnum n)]

/-- A RiskSet with five high risks whose reported deal-impact score is 0
(the rubric value 10 minus 2 per high risk, with no floor). -/
def grokFiveHigh : JVal :=
  .jobj [("risks", .jarr [mkHighRisk "termination_early" 300000,
    mkHighRisk "rent_gap" 200000, mkHighRisk "cam_uncapped" 150000,
    mkHighRisk "co_tenancy" 120000, mkHighRisk "environmental" 100000]),
    ("deal_impact_score", .jnum 0),
    ("investor_summary", .jstr "High risk lease.")]

/-- A ClauseSet whose single clause lacks the optional `confidence` field. -/
def claudeNoConf : JVal :=
  .jobj [("clauses", .jarr [.jobj [("type", .jstr "rent"),
    ("description", .jstr "Base rent clause."), ("page", .jnum 2)]])]

/-- The last report line, when rendering succeeded. -/
def lastLineOf (r : Except Exc (List String)) : Option String :=
  match r with
  | .ok ls => ls.getLast?
  | .error _ => none

/-- The report lines, when rendering succeeded. -/
def okLines (r : Except Exc (List String)) : List String :=
  match r with
  | .ok ls => ls
  | .error _ => []

/-! Helper lemmas. -/

/-- A character absent from a list is never found. -/
theorem firstIdx_eq_none (t : Char) (l : List Char) (h : t ∉ l) :
    firstIdx t l = none := by
  induction l with
  | nil => rfl
  | cons c rest ih =>
    simp only [List.mem_cons, not_or] at h
    have hc : ¬ c = t := fun hh => h.1 hh.symm
    simp [firstIdx, hc, ih h.2]

/-- Searching past a prefix free of the target shifts the index by the
length of the prefix. -/
theorem firstIdx_append (t : Char) (p xs : List Char) (hp : t ∉ p) :
    firstIdx t (p ++ xs) = (firstIdx t xs).map (fun n => n + p.length) := by
  induction p with
  | nil =>
    simp only [List.nil_append, List.length_nil]
    cases h : firstIdx t xs <;> simp [h]
  | cons c rest ih =>
    simp only [List.mem_cons, not_or] at hp
    have hc : ¬ c = t := fun hh => hp.1 hh.symm
    simp only [List.cons_append, firstIdx, if_neg hc, List.length_cons]
    cases h : firstIdx t xs <;> simp [h, ih hp.2]
    omega

theorem firstIdx_cons_self (t : Char) (r : List Char) :
    firstIdx t (t :: r) = some 0 := by
  simp [firstIdx]

/-- The greedy `\{.*\}` span of a string in which a brace-delimited block is
embedded between brace-free prose is exactly that block. -/
theorem extractJson_embed (p1 mid p2 : List Char)
    (h1 : '\x7b' ∉ p1) (h2 : '\x7d' ∉ p2) :
    extractJson (String.mk (p1 ++ ('\x7b' :: (mid ++ ['\x7d'])) ++ p2)) =
      some (String.mk ('\x7b' :: (mid ++ ['\x7d']))) := by
  have hfirst : firstIdx '\x7b' (p1 ++ ('\x7b' :: (mid ++ ['\x7d'])) ++ p2)
      = some p1.length := by
    rw [List.append_assoc, firstIdx_append _ _ _ h1, List.cons_append,
      firstIdx_cons_self]
    simp
  have hrev : (p1 ++ ('\x7b' :: (mid ++ ['\x7d'])) ++ p2).reverse
      = p2.reverse ++ ('\x7d' :: (mid.reverse ++ ('\x7b' :: p1.reverse))) := by
    simp [List.reverse_append]
  have hfr : firstIdx '\x7d' ((p1 ++ ('\x7b' :: (mid ++ ['\x7d'])) ++ p2).reverse)
      = some p2.length := by
    rw [hrev, firstIdx_append _ _ _ (by simpa using h2), firstIdx_cons_self]
    simp
  have hlenall : (p1 ++ ('\x7b' :: (mid ++ ['\x7d'])) ++ p2).length
      = p1.length + (mid.length + 2) + p2.length := by
    simp [List.length_append]
    omega
  have hlast : lastIdx '\x7d' (p1 ++ ('\x7b' :: (mid ++ ['\x7d'])) ++ p2)
      = some (p1.length + mid.length + 1) := by
    unfold lastIdx
    rw [hfr]
    simp only [hlenall, Option.some.injEq]
    omega
  unfold extractJson
  simp only [String.data] at *
  rw [hfirst, hlast]
  simp only []
  rw [if_pos (by omega)]
  have hdrop : ((p1 ++ ('\x7b' :: (mid ++ ['\x7d'])) ++ p2).drop p1.length)
      = ('\x7b' :: (mid ++ ['\x7d'])) ++ p2 := by
    rw [List.append_assoc]
    exact List.drop_left p1 _
  have htake : p1.length + mid.length + 1 - p1.length + 1
      = ('\x7b' :: (mid ++ ['\x7d'])).length := by
    simp
    omega
  rw [hdrop, htake, List.take_left]

/-- Every `except` clause produces the error envelope. -/
theorem handleExc_error (ex : Exc) : ∃ msg, handleExc ex = Response.error msg := by
  cases ex <;> exact ⟨_, rfl⟩

/-- A success return can only come from the last line of the `try` body:
both transient files were removed, the message is fixed, and the echoed
email is the parsed requester contact. -/
theorem runBody_success (env : Env) (m u e : String) (tr : Trace)
    (h : runBody env = (.ok (.success m u e), tr)) :
    tr.leaseFile = false ∧ tr.reportFile = false ∧
      m = "Lease processing completed successfully" ∧
      ∃ req, env.reqBody = .ok req ∧ e = parsedEmail (req.email.getD "") := by
  simp only [runBody] at h
  repeat' split at h
  all_goals simp_all [Prod.ext_iff]
  obtain ⟨-, htr⟩ := h
  subst htr
  exact ⟨rfl, rfl⟩

/-- Python `str.split(",")` always yields at least one token. -/
theorem pySplitComma_pos (cs : List Char) : 1 ≤ (pySplitComma cs).length := by
  induction cs with
  | nil => simp [pySplitComma]
  | cons c rest ih =>
    by_cases hc : c = ','
    · simp [pySplitComma, hc]
    · simp only [pySplitComma, if_neg hc]
      cases hp : pySplitComma rest with
      | nil => simp
      | cons t ts => simp

/-- A comma in the string yields at least two tokens, so the `[-2]`
indexing of line 121 cannot fail. -/
theorem pySplitComma_two (cs : List Char) (h : ',' ∈ cs) :
    2 ≤ (pySplitComma cs).length := by
  induction cs with
  | nil => simp at h
  | cons c rest ih =>
    by_cases hc : c = ','
    · simp only [pySplitComma, if_pos hc, List.length_cons]
      have := pySplitComma_pos rest
      omega
    · have hr : ',' ∈ rest := by
        rcases List.mem_cons.mp h with h1 | h2
        · exact absurd h1.symm hc
        · exact h2
      have h2 := ih hr
      simp only [pySplitComma, if_neg hc]
      cases hp : pySplitComma rest with
      | nil => rw [hp] at h2; simp at h2
      | cons t ts =>
        rw [hp] at h2
        simp only [List.length_cons] at h2 ⊢
        omega

/-- Python `xs[-2]` is the second element of the reversed list. -/
theorem getD_secondToLast {α : Type} (l : List α) (d : α) (h : 2 ≤ l.length) :
    l.reverse.get? 1 = some (l.getD (l.length - 2) d) := by
  have h1 : 1 < l.length := by omega
  rw [List.get?_reverse h1]
  have h2 : l.length - 1 - 1 = l.length - 2 := by omega
  rw [h2, List.getD_eq_getD_get?]
  cases hg : l.get? (l.length - 2) with
  | none =>
    rw [List.get?_eq_none] at hg
    omega
  | some x => simp

/-! Claim theorems. -/

/-- Claim C1: for every request, the handler returns exactly one of the two
envelope shapes — success with message, report URL and email, or error with
a message; whatever the oracle makes the external calls do, no modelled
exception escapes the `except` chain. -/
theorem claimC1_envelope_shapes (env : Env) :
    (∃ m u e, (processLease env).1 = Response.success m u e) ∨
      (∃ m, (processLease env).1 = Response.error m) := by
  cases h : (processLease env).1 with
  | success m u e => exact Or.inl ⟨m, u, e, rfl⟩
  | error m => exact Or.inr ⟨m, rfl⟩

/-- Claim C2, counterexample: with an empty text layer and OCR reading
nothing, `extract_text_from_pdf` returns `Except.ok ""` — not a failure —
and the pipeline sends the empty string to the clause model and completes,
contradicting the claimed explicit no-extractable-text condition. -/
theorem claimC2_counterexample :
    extractTextFromPdf (.ok [some ""]) (.ok [""]) = (.ok "", true) ∧
    (processLease envBlank).2.textSent = some "" ∧
    (processLease envBlank).1 = Response.success
      "Lease processing completed successfully" "https://s3.example/reports/signed" "b@x.com" :=
  ⟨rfl, rfl, rfl⟩

/-- Claim C2, amended: when the text layer yields no usable text, the
extractor returns the newline-joined OCR output unconditionally — including
the empty or whitespace-only case — so blank input flows on to the clause
stage instead of failing. -/
theorem claimC2_empty_text_passthrough :
    (∀ pages xs, hasNonWs (joinPages pages) = false →
      extractTextFromPdf (.ok pages) (.ok xs) = (.ok (joinNL xs), true)) ∧
    (∀ e xs, extractTextFromPdf (.error e) (.ok xs) = (.ok (joinNL xs), true)) := by
  constructor
  · intro pages xs h
    simp [extractTextFromPdf, ocrPart, h]
  · intro e xs
    simp [extractTextFromPdf, ocrPart]

/-- Claim C2, witness for the amended theorem at a concrete blank text
layer. -/
theorem claimC2_witness :
    extractTextFromPdf (.ok [some "", none]) (.ok ["", "SCANNED PAGE"]) =
      (.ok (joinNL ["", "SCANNED PAGE"]), true) :=
  claimC2_empty_text_passthrough.1 [some "", none] ["", "SCANNED PAGE"] (by decide)

/-- Claim C3, counterexample: a response holding exactly one JSON object
followed by prose that contains a closing brace is not parsed to that
object — the greedy span runs to the last brace and `json.loads` fails —
so the three response forms do not all yield the same parsed object and the
extraction is not the first balanced object. -/
theorem claimC3_counterexample :
    clauseParse "\x7b\"a\": 1\x7d" = .ok (.jobj [("a", .jnum 1)]) ∧
    clauseParse "\x7b\"a\": 1\x7d tail\x7d" = .error (.valueError "JSONDecodeError") :=
  ⟨rfl, rfl⟩

/-- Claim C3, amended: extraction takes the greedy span from the first
opening brace to the last closing brace, so pure JSON, fenced and
prose-surrounded responses agree whenever the leading context has no
opening brace and the trailing context no closing brace; a response with no
opening brace at all fails with the no-JSON-found `ValueError`. -/
theorem claimC3_greedy_extraction :
    (∀ p1 mid p2, '\x7b' ∉ p1 → '\x7d' ∉ p2 →
      clauseParse (String.mk (p1 ++ ('\x7b' :: (mid ++ ['\x7d'])) ++ p2)) =
        clauseParse (String.mk ('\x7b' :: (mid ++ ['\x7d'])))) ∧
    (∀ s, '\x7b' ∉ s.data →
      clauseParse s = .error (.valueError "No valid JSON found in Claude response")) := by
  constructor
  · intro p1 mid p2 h1 h2
    unfold clauseParse
    rw [extractJson_embed p1 mid p2 h1 h2]
    have h0 := extractJson_embed [] mid [] (by simp) (by simp)
    simp only [List.nil_append, List.append_nil] at h0
    rw [h0]
  · intro s h
    unfold clauseParse extractJson
    rw [firstIdx_eq_none _ _ h]

/-- Claim C3, witness: the amended theorem applied to a concrete
prose-wrapped object and to a concrete JSON-free response. -/
theorem claimC3_witness :
    clauseParse (String.mk (("NOTE: ").data
        ++ ('\x7b' :: (("\"a\": 1").data ++ ['\x7d'])) ++ (" end").data)) =
      clauseParse (String.mk ('\x7b' :: (("\"a\": 1").data ++ ['\x7d']))) ∧
    clauseParse "no json here" =
      .error (.valueError "No valid JSON found in Claude response") :=
  ⟨claimC3_greedy_extraction.1 _ _ _ (by decide) (by decide),
   claimC3_greedy_extraction.2 _ (by decide)⟩

/-- Claim C4, counterexample: a fenced code block around the JSON object is
parsed by the clause stage but rejected by the risk stage, so the two
stages do not share an identical JSON-extraction contract. -/
theorem claimC4_counterexample :
    clauseParse "```json\n\x7b\x7d\n```" = .ok (.jobj []) ∧
    riskParse (.jstr "```json\n\x7b\x7d\n```") = .error (.valueError "JSONDecodeError") :=
  ⟨rfl, rfl⟩

/-- Claim C4, amended: the risk stage feeds the raw content to `json.loads`
with no extraction step; a falsy or blank payload raises the explicit
no-JSON-block `ValueError`, an unparseable string the malformed-JSON one,
and a parseable string is decoded as-is. -/
theorem claimC4_raw_content_parse :
    (∀ v, pyTruthy v = false →
      riskParse v = .error (.valueError "No valid JSON block found in Grok response")) ∧
    (∀ s, hasNonWs s = false →
      riskParse (.jstr s) = .error (.valueError "No valid JSON block found in Grok response")) ∧
    (∀ s v, hasNonWs s = true → jsonLoads s = some v → riskParse (.jstr s) = .ok v) ∧
    (∀ s, hasNonWs s = true → jsonLoads s = none →
      riskParse (.jstr s) = .error (.valueError "JSONDecodeError")) := by
  have htr : ∀ s : String, hasNonWs s = true → pyTruthy (.jstr s) = true := by
    intro s h
    by_cases hs : s = ""
    · subst hs; exact absurd h (by decide)
    · simp [pyTruthy, hs]
  refine ⟨?_, ?_, ?_, ?_⟩
  · intro v h; simp [riskParse, h]
  · intro s h
    by_cases hs : s = ""
    · subst hs; rfl
    · have ht : pyTruthy (.jstr s) = true := by simp [pyTruthy, hs]
      simp [riskParse, ht, h]
  · intro s v h hl
    simp [riskParse, htr s h, h, hl]
  · intro s h hl
    simp [riskParse, htr s h, h, hl]

/-- Claim C4, witness: the amended theorem applied to a null payload, a
blank string, a valid object, and a malformed string. -/
theorem claimC4_witness :
    riskParse .jnull = .error (.valueError "No valid JSON block found in Grok response") ∧
    riskParse (.jstr "   ") = .error (.valueError "No valid JSON block found in Grok response") ∧
    riskParse (.jstr "\x7b\"k\": true\x7d") = .ok (.jobj [("k", .jbool true)]) ∧
    riskParse (.jstr "oops") = .error (.valueError "JSONDecodeError") :=
  ⟨claimC4_raw_content_parse.1 _ rfl,
   claimC4_raw_content_parse.2.1 _ (by decide),
   claimC4_raw_content_parse.2.2.1 _ _ (by decide) rfl,
   claimC4_raw_content_parse.2.2.2 _ (by decide) rfl⟩

/-- Claim C5, counterexample: when the clause-model call fails after the
source PDF was written, the request terminates in the error envelope with
the downloaded lease file still present — the failure paths run no
cleanup. -/
theorem claimC5_counterexample :
    (processLease envClaudeFail).1 =
      Response.error "Failed to download or process file: timeout" ∧
    (processLease envClaudeFail).2.leaseFile = true :=
  ⟨rfl, rfl⟩

/-- Claim C5, amended: both transient files are deleted before the response
only on the success path; a success response therefore implies no leftover
file. -/
theorem claimC5_cleanup_on_success (env : Env) (m u e : String)
    (h : (processLease env).1 = Response.success m u e) :
    (processLease env).2.leaseFile = false ∧ (processLease env).2.reportFile = false := by
  unfold processLease at h ⊢
  rcases hrb : runBody env with ⟨r, tr⟩
  cases r with
  | ok resp =>
    rw [hrb] at h
    have h2 : resp = Response.success m u e := h
    rw [h2] at hrb
    obtain ⟨hl, hr, -, -⟩ := runBody_success env m u e tr hrb
    exact ⟨hl, hr⟩
  | error ex =>
    rw [hrb] at h
    obtain ⟨msg, hm⟩ := handleExc_error ex
    have h2 : handleExc ex = Response.success m u e := h
    rw [hm] at h2
    exact absurd h2 (by simp)

/-- Claim C5, witness for the amended theorem on the all-success
environment. -/
theorem claimC5_witness :
    (processLease envOk).1 = Response.success
      "Lease processing completed successfully" "https://s3.example/reports/signed" "b@x.com" ∧
    (processLease envOk).2.leaseFile = false ∧ (processLease envOk).2.reportFile = false :=
  ⟨rfl, claimC5_cleanup_on_success envOk _ _ _ rfl⟩

/-- Claim C6, counterexample: a RiskSet with five high risks whose reported
score is 0 (the rubric value 10 - 2 per high risk, unfloored) renders as
0/10 — strictly below the documented floor of 1 — because no code path
clamps the model-reported score. -/
theorem claimC6_counterexample :
    lastLineOf (renderReport "2025-07-19 15:52:00 CDT" (.jobj []) grokFiveHigh) =
      some "<b>Deal Impact Score</b>: 0/10 (Moderate Risk)" ∧
    ((0 : Rat) < 1) :=
  ⟨rfl, by norm_num⟩

/-- Claim C6, amended: the floor of 1 exists only as prompt text for the
risk model; the rendered score is the raw value of the
`deal_impact_score` field (default 8), with no clamping. -/
theorem claimC6_no_clamping (fs : List (String × JVal)) (q : Rat)
    (h : lookupField fs "deal_impact_score" = some (.jnum q)) :
    scoreLineOf (.jobj fs) = .ok ("<b>Deal Impact Score</b>: " ++ pyNumRepr q
      ++ "/10 (" ++ (if 8 ≤ q then "Low" else "Moderate") ++ " Risk)") := by
  unfold scoreLineOf
  rw [show pyDotGetD (.jobj fs) "deal_impact_score" (.jnum 8) = .ok (.jnum q) by
    simp [pyDotGetD, h]]
  simp only [bind, Except.bind, scoreGE8, jDisplay, pure, Except.pure]
  by_cases hq : 8 ≤ q <;> simp [hq]

/-- Claim C6, witness for the amended theorem at a reported score of 0. -/
theorem claimC6_witness :
    scoreLineOf (.jobj [("deal_impact_score", .jnum 0)]) =
      .ok ("<b>Deal Impact Score</b>: " ++ pyNumRepr 0 ++ "/10 ("
        ++ (if (8 : Rat) ≤ 0 then "Low" else "Moderate") ++ " Risk)") :=
  claimC6_no_clamping [("deal_impact_score", .jnum 0)] 0 rfl

/-- Claim C7, counterexample: a ClauseSet whose clause lacks the
`confidence` field makes the renderer raise `KeyError` — clause fields are
direct subscripts, not defaulted accesses. -/
theorem claimC7_counterexample :
    renderReport "2025-07-19 15:52:00 CDT" claudeNoConf (.jobj []) =
      .error (.keyError "confidence") := rfl

/-- Claim C7, amended: the renderer falls back to placeholders only for the
optional accesses that use `.get` with a default — a risk record missing
`page` and `calculation` renders with `N/A`, and every absent top-level
section (clauses, risks, missing clauses, manual review, highlights,
trust score, investor summary, deal score) takes its documented default —
while clause fields and the risk type and NOI-impact subscripts throw. -/
theorem claimC7_optional_fallbacks (t : String) (q : Rat) :
    renderReport "2025-07-19 15:52:00 CDT" (.jobj [])
      (.jobj [("risks", .jarr [.jobj [("type", .jstr t),
        ("severity", .jstr "high"), ("noi_impact", .jnum q)]])]) =
    .ok ["<b>Lease Summary Report</b>",
      "<b>Property</b>: [Property Name]",
      "<b>Uploaded</b>: 2025-07-19 15:52:00 CDT",
      "<b>Generated by</b>: LeaseScan AI",
      "<b>Trust Score</b>: 95%",
      "<b>Key Details</b>",
      "<b>Risk Flags</b>",
      "<b>High Risk</b>",
      "- <b>" ++ titleCase (replaceUS t) ++ "</b> (Page " ++ "N/A" ++ "): $"
        ++ pyNumRepr q ++ "/year (" ++ "N/A" ++ ")",
      "<b>Investor Summary</b>",
      "Stable lease with minimal risks.",
      "<b>Deal Impact Score</b>: 8/10 (Low Risk)"] := rfl

/-- Claim C8, counterexample: a text layer producing the non-empty but
whitespace-only string still triggers the OCR fallback and its output is
returned, so OCR is not gated on the text layer being non-empty. -/
theorem claimC8_counterexample :
    joinPages [some " "] = " " ∧ (" " : String) ≠ "" ∧
    extractTextFromPdf (.ok [some " "]) (.ok ["OCRTEXT"]) = (.ok "OCRTEXT", true) :=
  ⟨rfl, by decide, rfl⟩

/-- Claim C8, amended: whenever the text layer yields usable
(non-whitespace) text, the extractor returns exactly that text and the OCR
fallback block never runs. -/
theorem claimC8_no_ocr_when_usable (pages : List (Option String))
    (ocrRes : Except Exc (List String)) (h : hasNonWs (joinPages pages) = true) :
    extractTextFromPdf (.ok pages) ocrRes = (.ok (joinPages pages), false) := by
  simp [extractTextFromPdf, h]

/-- Claim C8, witness for the amended theorem on a genuine text layer. -/
theorem claimC8_witness :
    extractTextFromPdf (.ok [some "LEASE", some " TEXT"]) (.ok ["X"]) =
      (.ok (joinPages [some "LEASE", some " TEXT"]), false) :=
  claimC8_no_ocr_when_usable [some "LEASE", some " TEXT"] (.ok ["X"]) (by decide)

/-- Claim C9: with a comma present the requester contact is the
second-to-last comma-separated token (the second entry of the reversed
token list), without one the string is used as-is; the example
`a,b@x.com,c` parses to `b@x.com`; and every success envelope echoes the
parsed contact of the request email. -/
theorem claimC9_email_parsing :
    (∀ s, ',' ∈ s.data →
      (pySplitComma s.data).reverse.get? 1 = some ((parsedEmail s).data)) ∧
    (∀ s, ',' ∉ s.data → parsedEmail s = s) ∧
    parsedEmail "a,b@x.com,c" = "b@x.com" ∧
    (∀ env req m u e, env.reqBody = .ok req →
      (processLease env).1 = Response.success m u e →
      e = parsedEmail (req.email.getD "")) := by
  refine ⟨?_, ?_, rfl, ?_⟩
  · intro s h
    unfold parsedEmail
    rw [if_pos h]
    exact getD_secondToLast _ _ (pySplitComma_two _ h)
  · intro s h
    unfold parsedEmail
    rw [if_neg h]
  · intro env req m u e hreq h
    unfold processLease at h
    rcases hrb : runBody env with ⟨r, tr⟩
    cases r with
    | ok resp =>
      rw [hrb] at h
      have h2 : resp = Response.success m u e := h
      rw [h2] at hrb
      obtain ⟨-, -, -, req2, hreq2, he⟩ := runBody_success env m u e tr hrb
      rw [hreq] at hreq2
      cases hreq2
      exact he
    | error ex =>
      rw [hrb] at h
      obtain ⟨msg, hm⟩ := handleExc_error ex
      have h2 : handleExc ex = Response.success m u e := h
      rw [hm] at h2
      exact absurd h2 (by simp)

/-- Claim C9, witness: the theorem applied to the spec example and to the
all-success environment, whose envelope echoes `b@x.com`. -/
theorem claimC9_witness :
    (pySplitComma ("a,b@x.com,c").data).reverse.get? 1 =
      some ((parsedEmail "a,b@x.com,c").data) ∧
    parsedEmail "plain@x.com" = "plain@x.com" ∧
    parsedEmail "a,b@x.com,c" = "b@x.com" ∧
    "b@x.com" = parsedEmail ((ReqData.mk (some "https://x/lease.pdf")
      (some "a,b@x.com,c")).email.getD "") :=
  ⟨claimC9_email_parsing.1 _ (by decide),
   claimC9_email_parsing.2.1 _ (by decide),
   claimC9_email_parsing.2.2.1,
   claimC9_email_parsing.2.2.2 envOk (ReqData.mk (some "https://x/lease.pdf")
     (some "a,b@x.com,c")) "Lease processing completed successfully"
     "https://s3.example/reports/signed" "b@x.com" rfl rfl⟩

/-- Claim C10, counterexample: a Claude body whose `content` key is present
but an empty list raises `IndexError` at the `[0]` subscript, so the
pipeline fails with the unexpected-error envelope instead of defaulting —
the claimed tolerance holds for a missing key, not an empty list. -/
theorem claimC10_counterexample :
    claudeExtractContent (.jobj [("content", .jarr [])]) = .error .indexError ∧
    (processLease envEmptyContentList).1 =
      Response.error "Unexpected error: list index out of range" :=
  ⟨rfl, rfl⟩

/-- Claim C10, amended: when the `content` key (or the `text` key of the
first block) is missing, the content defaults to the empty-object string,
which parses to an empty object; the checklist validation then warns on all
six required clause types, the report renders the default trust score of
95, and the pipeline completes successfully — while an empty `text` string
is used as-is and fails with the no-JSON-found error. -/
theorem claimC10_default_content :
    claudeExtractContent (.jobj []) = .ok "\x7b\x7d" ∧
    clauseParse "\x7b\x7d" = .ok (.jobj []) ∧
    checklistMissing (.jobj []) = .ok checklist ∧
    "<b>Trust Score</b>: 95%" ∈
      okLines (renderReport "2025-07-19 15:52:00 CDT" (.jobj []) (.jobj [])) ∧
    claudeExtractContent (.jobj [("content", .jarr [.jobj [("text", .jstr "")]])]) = .ok "" ∧
    clauseParse "" = .error (.valueError "No valid JSON found in Claude response") ∧
    (processLease envNoContent).1 = Response.success
      "Lease processing completed successfully" "https://s3.example/reports/signed" "b@x.com" :=
  ⟨rfl, rfl, rfl, by decide, rfl, rfl, rfl⟩

end LeaseScan
